import Mathlib

/-!
Verification development for `tjsdoc-plugin-watcher`.

Shallow embedding of the consolidated Watcher orchestrator
(`src/plugin.js`, the chokidar + WatchGroup variant) together with
`src/WatchGroup.js`.  Pure data flow and the event traces emitted on the
plugin eventbus are modelled explicitly; external collaborators (chokidar,
readline, the host eventbus, the filesystem) appear only through the
callbacks / values they deliver.  Log-message payloads that interpolate
JSON-serialized data are elided; events and log lines relevant to the
verified properties are kept.
-/

namespace TJSDocWatcher

/-- A JavaScript value stored in an options object: either a boolean or
some non-boolean value (`other`, distinguished by a tag).  Mirrors the
`typeof x === \x27boolean\x27` checks in the source. -/
inductive JSVal
  | bool (b : Bool)
  | other (tag : Nat)
deriving DecidableEq, Repr

/-- The Watcher `this.options` object: an insertion-ordered association
list of property name to value (JS objects have unique keys; theorems do
not depend on duplicates). -/
abbrev OptionsState := List (String × JSVal)

/-- JS property read `st[k]`: first binding wins, `none` models
`undefined`. -/
def lookupOpt : OptionsState → String → Option JSVal
  | [], _ => none
  | (k', v) :: rest, k => if k' = k then some v else lookupOpt rest k

/-- JS property assignment `st[k] = v`: replaces the existing binding in
place, or appends a new one (insertion order preserved). -/
def assignOpt : OptionsState → String → JSVal → OptionsState
  | [], k, v => [(k, v)]
  | (k', v') :: rest, k, v =>
      if k' = k then (k', v) :: rest else (k', v') :: assignOpt rest k v

/-- JS truthiness of a stored option value.  The Watcher only ever stores
booleans in `this.options` (constructor and `addCommand` both guard with
`typeof ... === \x27boolean\x27`), so the `other` branch never matters for
the verified properties. -/
def jsTruthy : JSVal → Bool
  | JSVal.bool b => b
  | JSVal.other _ => true

/-- Truthiness of `this.options.k` (an absent key reads as `undefined`,
which is falsy). -/
def optTruthy (st : OptionsState) (k : String) : Bool :=
  match lookupOpt st k with
  | some v => jsTruthy v
  | none => false

/-- `Watcher.getOptions`: `JSON.parse(JSON.stringify(this.options))` — a
deep copy of the options state.  In the pure model a copy is the value
itself. -/
def getOptions (st : OptionsState) : OptionsState := st

/-- The events this plugin emits on the host eventbus (plus the log
events it triggers).  Payloads retained exactly where a verified property
inspects them. -/
inductive Ev
  | initializedEv
  | startedEv (data : List (String × (List String × List (String × List String))))
  | update (action : String) (ty : String) (path : String) (opts : OptionsState)
  | optionsChanged (opts : OptionsState)
  | stopped
  | regenerateAllDocs
  | systemShutdown
  | logInfo (msg : String)
  | logRaw (msg : String)
deriving DecidableEq, Repr

/-- The loop body of `Watcher.setOptions`: iterate the supplied object
keys in order; a key is written back only when both the current value and
the supplied value are booleans, and then the changed flag is raised. -/
def setOptionsGo (st : OptionsState) (changed : Bool) :
    List (String × JSVal) → OptionsState × Bool
  | [] => (st, changed)
  | (k, v) :: rest =>
      match lookupOpt st k, v with
      | some (JSVal.bool _), JSVal.bool b =>
          setOptionsGo (assignOpt st k (JSVal.bool b)) true rest
      | _, _ => setOptionsGo st changed rest

/-- `Watcher.setOptions` state effect: the resulting options state and
whether any accepted mutation occurred. -/
def setOptionsRun (st : OptionsState) (opts : List (String × JSVal)) :
    OptionsState × Bool :=
  setOptionsGo st false opts

/-- `Watcher.setOptions` including its eventbus effect: when the changed
flag was raised, the full resulting state (via `getOptions`) is broadcast
on `tjsdoc:system:watcher:options:changed`. -/
def setOptionsCall (st : OptionsState) (opts : List (String × JSVal)) :
    OptionsState × List Ev :=
  let r := setOptionsRun st opts
  (r.1, if r.2 then [Ev.optionsChanged (getOptions r.1)] else [])

/-- Default options state built by the Watcher constructor when the
plugin options carry no overrides (object-literal key order: silent,
trigger, verbose). -/
def defaultOptions : OptionsState :=
  [("silent", JSVal.bool false), ("trigger", JSVal.bool true),
   ("verbose", JSVal.bool false)]

/-! ### Ignore policy (`Watcher.ignoredMatch`) -/

/-- A scope configuration: the `_includes` and `_excludes` regex lists of
a TJSDoc scope config.  `path.match(reg)` is abstracted as a boolean
predicate on paths. -/
structure ScopeConfig where
  includes : List (String → Bool)
  excludes : List (String → Bool)

/-- The first loop of `ignoredMatch`: scan `_includes`, `break` on the
first match. -/
def includeLoop (path : String) : List (String → Bool) → Bool
  | [] => false
  | reg :: rest => if reg path then true else includeLoop path rest

/-- The second loop of `ignoredMatch`: scan `_excludes`, forcing
`ignored := true` on any match (no break). -/
def excludeLoop (path : String) (ignored : Bool) : List (String → Bool) → Bool
  | [] => ignored
  | reg :: rest => excludeLoop path (if reg path then true else ignored) rest

/-- `Watcher.ignoredMatch(path, config)` translated loop-for-loop:
`ignored := false`; `match := includes scan`; `if (!match) ignored :=
true`; then the excludes scan. -/
def ignoredMatch (path : String) (cfg : ScopeConfig) : Bool :=
  excludeLoop path (if includeLoop path cfg.includes then false else true)
    cfg.excludes

/-- The spec\x27s reference definition of the ignore decision:
`ignored = !matchesAnyInclude(path) OR matchesAnyExclude(path)`. -/
def ignoredSpec (path : String) (cfg : ScopeConfig) : Bool :=
  !(cfg.includes.any (fun reg => reg path)) ||
    cfg.excludes.any (fun reg => reg path)

/-! ### WatchGroup close / getWatched (`src/WatchGroup.js`) -/

/-- The underlying chokidar watcher, reduced to the watched-files index
it reports (directory path to file-name list). -/
structure ChokidarHandle where
  watched : List (String × List String)
deriving DecidableEq, Repr

/-- A `WatchGroup` after construction: `_watcher` is `undefined` until
`initialize` and again after `close`. -/
structure WatchGroupState where
  watcher : Option ChokidarHandle
deriving DecidableEq, Repr

/-- `WatchGroup.close()`: calls `this._watcher.close()` then clears the
reference.  Calling a method on `undefined` throws, modelled as
`Except.error`. -/
def closeGroup (g : WatchGroupState) : Except Unit WatchGroupState :=
  match g.watcher with
  | some _ => Except.ok { watcher := none }
  | none => Except.error ()

/-- `WatchGroup.getWatched()`: `this._watcher ? this._watcher.getWatched()
: \x7b\x7d`. -/
def groupGetWatched (g : WatchGroupState) : List (String × List String) :=
  match g.watcher with
  | some w => w.watched
  | none => []

/-! ### WatchGroup runtime callbacks (`WatchGroup.initialize` handlers) -/

/-- A raw chokidar callback delivered to a ready WatchGroup. -/
inductive FsCb
  | add (path : String)
  | change (path : String)
  | unlink (path : String)
deriving DecidableEq, Repr

/-- `Watcher.triggerEvent`: forwards an outbound event to the host
eventbus only while `this.options.trigger` is truthy. -/
def triggerEvent (opts : OptionsState) (e : Ev) : List Ev :=
  if optTruthy opts "trigger" then [e] else []

/-- `Watcher.logVerbose`: emits `log:info:time` only when
`this.options.verbose && !this.options.silent && this.options.trigger`. -/
def verboseLogEvs (opts : OptionsState) (msg : String) : List Ev :=
  if optTruthy opts "verbose" && !(optTruthy opts "silent") &&
      optTruthy opts "trigger" then
    [Ev.logInfo msg]
  else []

/-- `Watcher.log`: emits `log:info:time` when `!this.options.silent &&
this.options.trigger`. -/
def logEvs (opts : OptionsState) (msg : String) : List Ev :=
  if !(optTruthy opts "silent") && optTruthy opts "trigger" then
    [Ev.logInfo msg]
  else []

/-- One chokidar callback handled by the handlers that
`WatchGroup.initialize` registers after readiness: a verbose log plus a
`tjsdoc:system:watcher:update` event through `triggerEvent`, with the
action literal of the source (`file:add` / `file:change` /
`file:unlink`).  `add` / `unlink` handlers are only wired when
`onlyChanges` is false. -/
def watchGroupCallback (opts : OptionsState) (ty : String)
    (onlyChanges : Bool) : FsCb → List Ev
  | FsCb.change p =>
      verboseLogEvs opts ("tjsdoc-plugin-watcher - " ++ ty ++ " changed: " ++ p)
        ++ triggerEvent opts (Ev.update "file:change" ty p (getOptions opts))
  | FsCb.add p =>
      if onlyChanges then []
      else
        verboseLogEvs opts
            ("tjsdoc-plugin-watcher - " ++ ty ++ " addition: " ++ p)
          ++ triggerEvent opts (Ev.update "file:add" ty p (getOptions opts))
  | FsCb.unlink p =>
      if onlyChanges then []
      else
        verboseLogEvs opts
            ("tjsdoc-plugin-watcher - " ++ ty ++ " unlinked: " ++ p)
          ++ triggerEvent opts (Ev.update "file:unlink" ty p (getOptions opts))

/-- A sequence of chokidar callbacks delivered to one ready WatchGroup
while the options state stays fixed. -/
def watchGroupRun (opts : OptionsState) (ty : String) (onlyChanges : Bool)
    (cbs : List FsCb) : List Ev :=
  cbs.flatMap (watchGroupCallback opts ty onlyChanges)

/-- Recognizer for `tjsdoc:system:watcher:update` events. -/
def isUpdateEv : Ev → Bool
  | Ev.update _ _ _ _ => true
  | _ => false

/-- The action string carried by an update event (empty for others). -/
def updateAction : Ev → String
  | Ev.update a _ _ _ => a
  | _ => ""

/-! ### Shutdown state machine (`Watcher.shutdownCallback`) -/

/-- The orchestrator state relevant to shutdown: the options object, the
terminal prompt flag, whether readline is open, whether the local
eventProxy bindings (including the one for
`tjsdoc:system:watcher:shutdown`) are attached, and which watch groups
are active. -/
structure WatcherState where
  options : OptionsState
  promptVisible : Bool
  readlineActive : Bool
  shutdownBound : Bool
  indexActive : Bool
  manualActive : Bool
  testActive : Bool
  sourceActive : Bool
deriving DecidableEq, Repr

/-- The `regenerate` flag captured at shutdown request time:
`typeof options === \x27object\x27 && typeof options.regenerate ===
\x27boolean\x27 ? options.regenerate : false`.  The payload is `none`
for a missing argument, `some r` for an object whose `regenerate`
property is `r` (`none` when absent / non-present). -/
def regenOf : Option (Option JSVal) → Bool
  | some (some (JSVal.bool b)) => b
  | _ => false

/-- `Watcher.shutdownCallback(options)` translated statement-for-
statement: capture the flag, verbose log, clear the prompt, close
readline, detach the local eventProxy bindings (`this.eventProxy.off()`)
and the SIGINT handler, close every active watch group, emit `stopped`,
verbose log, then emit exactly one terminal event chosen by the flag. -/
def shutdownCallback (st : WatcherState) (payload : Option (Option JSVal)) :
    WatcherState × List Ev :=
  let regenerate := regenOf payload
  let evs1 := verboseLogEvs st.options
    ("tjsdoc-plugin-watcher - shutdown requested" ++
      (if regenerate then " with regeneration" else "") ++ ".")
  let st1 : WatcherState :=
    { st with promptVisible := false, readlineActive := false,
              shutdownBound := false, indexActive := false,
              manualActive := false, testActive := false,
              sourceActive := false }
  let evs2 := verboseLogEvs st1.options "tjsdoc-plugin-watcher - watching stopped."
  (st1, evs1 ++ [Ev.stopped] ++ evs2 ++
    [if regenerate then Ev.regenerateAllDocs else Ev.systemShutdown])

/-- Delivery of a `tjsdoc:system:watcher:shutdown` request on the
eventbus: the callback runs only while its local eventProxy binding is
still attached; `shutdownCallback` itself detaches it, so a later request
finds no listener. -/
def processShutdownRequest (st : WatcherState)
    (payload : Option (Option JSVal)) : WatcherState × List Ev :=
  if st.shutdownBound then shutdownCallback st payload else (st, [])

/-- Recognizer for the `stopped` event and the two terminal events. -/
def isStoppedOrTerminal : Ev → Bool
  | Ev.stopped => true
  | Ev.regenerateAllDocs => true
  | Ev.systemShutdown => true
  | _ => false

/-! ### Startup aggregation (`Watcher.initialize`, readiness join) -/

/-- The watch scopes relevant at initialization. -/
structure Config where
  hasIndex : Bool
  hasManualGlobs : Bool
  hasSourceGlobs : Bool
  hasTestGlobs : Bool
deriving DecidableEq, Repr

/-- The groups scheduled by `Watcher.initialize`, in scheduling order:
index (when `fs.existsSync(config.index)`), manual (when the manual glob
list is non-empty), source, test. -/
def scheduledGroups (cfg : Config) : List String :=
  (if cfg.hasIndex then ["index"] else []) ++
    (if cfg.hasManualGlobs then ["manual"] else []) ++
      (if cfg.hasSourceGlobs then ["source"] else []) ++
        (if cfg.hasTestGlobs then ["test"] else [])

/-- Per-group start data resolved by a WatchGroup promise: its globs and
the watched-files snapshot at readiness. -/
abbrev StartEntry := List String × List (String × List String)

/-- The aggregate `watcherStartData`: `Object.assign` of the all-empty
default object (literal key order source, test, index, manual) with each
resolved per-group result. -/
def mergedStartData (cfg : Config) (gdata : String → StartEntry) :
    List (String × StartEntry) :=
  [("source", if cfg.hasSourceGlobs then gdata "source" else ([], [])),
   ("test", if cfg.hasTestGlobs then gdata "test" else ([], [])),
   ("index", if cfg.hasIndex then gdata "index" else ([], [])),
   ("manual", if cfg.hasManualGlobs then gdata "manual" else ([], []))]

/-- The body of the `Promise.all(watcherPromises).then(...)` callback:
a log line and the single aggregate `tjsdoc:system:watcher:started`
event. -/
def startFire (opts : OptionsState) (cfg : Config) (gdata : String → StartEntry) :
    List Ev :=
  logEvs opts "tjsdoc-plugin-watcher - type \x27help\x27 for options." ++
    [Ev.startedEv (mergedStartData cfg gdata)]

/-- The `Promise.all` join over the scheduled groups: walk the readiness
signals in delivery order; the then-callback fires exactly when the last
pending promise resolves (duplicate signals resolve an already-resolved
promise, a no-op). -/
def promiseAllJoin (opts : OptionsState) (cfg : Config)
    (gdata : String → StartEntry) :
    List String → List String → List Ev
  | _, [] => []
  | pending, r :: rest =>
      let remaining := pending.filter (fun g => g ≠ r)
      if pending ≠ [] ∧ remaining = [] then
        startFire opts cfg gdata ++ promiseAllJoin opts cfg gdata remaining rest
      else promiseAllJoin opts cfg gdata remaining rest

/-- The observable trace of `Watcher.initialize` restricted to the
startup join: when no group is scheduled the code logs
`no main source or tests to watch.` — but `Promise.all` over the empty
promise list still resolves on the next microtask, so the then-callback
runs and the `started` event fires anyway.  With at least one scheduled
group the event fires through the join.  (The synchronous per-group
`watching ... globs` logs and the `initialized` event are elided.) -/
def runWatcherInit (opts : OptionsState) (cfg : Config)
    (gdata : String → StartEntry) (readies : List String) : List Ev :=
  let scheduled := scheduledGroups cfg
  if scheduled = [] then
    logEvs opts "tjsdoc-plugin-watcher: no main source or tests to watch." ++
      startFire opts cfg gdata
  else promiseAllJoin opts cfg gdata scheduled readies

/-- Recognizer for the aggregate started event. -/
def isStartedEv : Ev → Bool
  | Ev.startedEv _ => true
  | _ => false

/-! ### Console dispatch for optional (toggle) commands
(`Watcher.addCommand`, the readline line handler in
`Watcher.initialize`) -/

/-- Console-session state: options, whether the readline interface is
open, and whether the prompt is showing. -/
structure ConsoleState where
  options : OptionsState
  readlineActive : Bool
  promptVisible : Bool
deriving DecidableEq, Repr

/-- The message of the Error thrown by the generated optional exec. -/
def malformedMsg (nm : String) : String :=
  nm ++ " command malformed; must be \x27" ++ nm ++ " [on/off]\x27"

/-- `showPrompt`: re-shows the terminal prompt unless silent mode is
active. -/
def showPromptUpd (cs : ConsoleState) : ConsoleState :=
  if !(optTruthy cs.options "silent") then { cs with promptVisible := true }
  else cs

/-- The exec that `addCommand` generates for a `type: \x27optional\x27`
command `nm`: parse `lineSplit[1]`; `on` / `off` write the boolean into
`this.options`, broadcast the options-changed event and re-show the
prompt; a missing or unrecognized token throws (modelled as
`Except.error`) before any state change.  (The optional caller-supplied
side-effect hook is external and elided.) -/
def execOptional (nm : String) (cs : ConsoleState) (lineSplit : List String) :
    Except String (ConsoleState × List Ev) :=
  match lineSplit[1]? with
  | some t =>
      if t = "off" then
        let opts2 := assignOpt cs.options nm (JSVal.bool false)
        Except.ok (showPromptUpd { cs with options := opts2 },
          [Ev.optionsChanged (getOptions opts2)])
      else if t = "on" then
        let opts2 := assignOpt cs.options nm (JSVal.bool true)
        Except.ok (showPromptUpd { cs with options := opts2 },
          [Ev.optionsChanged (getOptions opts2)])
      else Except.error (malformedMsg nm)
  | none => Except.error (malformedMsg nm)

/-- The readline line handler, restricted to a line whose first token
names a registered optional command `nm`: clear the prompt flag, run the
command exec inside `try`; on a throw the dispatcher reports the error
message with `log:info:raw`, re-shows the prompt and returns — the
session stays alive and no state was changed. -/
def dispatchOptionalCmd (cs : ConsoleState) (nm : String)
    (lineSplit : List String) : ConsoleState × List Ev :=
  let cs0 := { cs with promptVisible := false }
  match execOptional nm cs0 lineSplit with
  | Except.ok r => r
  | Except.error msg =>
      (showPromptUpd cs0,
        [Ev.logRaw ("\x1b[32mtjsdoc-plugin-watcher - " ++ msg ++ "\x1b[0m")])

/-- A sample partial-options object mixing an unknown key, a non-boolean
value for a known key, and an accepted boolean mutation (used to
exercise `setOptions`). -/
def sampleSetOpts : List (String × JSVal) :=
  [("unknown", JSVal.bool true), ("silent", JSVal.other 0),
   ("verbose", JSVal.bool true)]

/-! ## Helper lemmas -/

-- Reading back the assigned property yields the assigned value.
theorem lookup_assign_self (st : OptionsState) (k : String) (v : JSVal) :
    lookupOpt (assignOpt st k v) k = some v := by
  induction st with
  | nil => simp [assignOpt, lookupOpt]
  | cons kv rest ih =>
      obtain ⟨k', v'⟩ := kv
      by_cases hk : k' = k
      · simp [assignOpt, lookupOpt, hk]
      · simp [assignOpt, lookupOpt, hk, ih]

-- Assignment leaves all other properties untouched.
theorem lookup_assign_ne (st : OptionsState) (k k' : String) (v : JSVal)
    (h : k' ≠ k) : lookupOpt (assignOpt st k v) k' = lookupOpt st k' := by
  have h2 : k ≠ k' := Ne.symm h
  induction st with
  | nil => simp [assignOpt, lookupOpt, h2]
  | cons kv rest ih =>
      obtain ⟨k1, v1⟩ := kv
      by_cases hk : k1 = k
      · subst hk
        simp [assignOpt, lookupOpt, h2]
      · simp [assignOpt, lookupOpt, hk, ih]

-- Assigning to an existing property preserves the key list.
theorem assign_keys_of_present (st : OptionsState) (k : String)
    (v0 v : JSVal) (h : lookupOpt st k = some v0) :
    (assignOpt st k v).map Prod.fst = st.map Prod.fst := by
  induction st with
  | nil => simp [lookupOpt] at h
  | cons kv rest ih =>
      obtain ⟨k1, v1⟩ := kv
      by_cases hk : k1 = k
      · simp [assignOpt, hk]
      · simp [lookupOpt, hk] at h
        simp [assignOpt, hk, ih h]

-- The setOptions loop never adds or removes option keys.
theorem setOptionsGo_keys (opts : List (String × JSVal)) :
    ∀ (st : OptionsState) (c : Bool),
      ((setOptionsGo st c opts).1).map Prod.fst = st.map Prod.fst := by
  induction opts with
  | nil => intro st c; simp [setOptionsGo]
  | cons kv rest ih =>
      intro st c
      obtain ⟨k, v⟩ := kv
      rcases v with b | t
      · rcases hl : lookupOpt st k with _ | w
        · simp [setOptionsGo, hl, ih]
        · rcases w with b' | t'
          · rw [show setOptionsGo st c ((k, JSVal.bool b) :: rest)
                  = setOptionsGo (assignOpt st k (JSVal.bool b)) true rest by
                simp [setOptionsGo, hl]]
            rw [ih, assign_keys_of_present st k (JSVal.bool b') _ hl]
          · simp [setOptionsGo, hl, ih]
      · rcases hl : lookupOpt st k with _ | w
        · simp [setOptionsGo, hl, ih]
        · rcases w with b' | t' <;> simp [setOptionsGo, hl, ih]

-- Keys never supplied with a boolean value in the partial object are
-- not mutated.
theorem setOptionsGo_lookup_not_supplied (opts : List (String × JSVal)) :
    ∀ (st : OptionsState) (c : Bool) (k : String),
      (∀ b, (k, JSVal.bool b) ∉ opts) →
      lookupOpt (setOptionsGo st c opts).1 k = lookupOpt st k := by
  induction opts with
  | nil => intro st c k _; simp [setOptionsGo]
  | cons kv rest ih =>
      intro st c k h
      obtain ⟨k1, v1⟩ := kv
      have hrest : ∀ b, (k, JSVal.bool b) ∉ rest := by
        intro b hb
        exact h b (List.mem_cons_of_mem _ hb)
      rcases v1 with b1 | t1
      · have hk : k1 ≠ k := by
          intro he
          subst he
          exact h b1 (List.mem_cons_self _ _)
        rcases hl : lookupOpt st k1 with _ | w
        · simp [setOptionsGo, hl, ih _ _ _ hrest]
        · rcases w with b' | t'
          · rw [show setOptionsGo st c ((k1, JSVal.bool b1) :: rest)
                  = setOptionsGo (assignOpt st k1 (JSVal.bool b1)) true rest by
                simp [setOptionsGo, hl]]
            rw [ih _ _ _ hrest, lookup_assign_ne st k1 k _ (fun hh => hk hh.symm)]
          · simp [setOptionsGo, hl, ih _ _ _ hrest]
      · rcases hl : lookupOpt st k1 with _ | w
        · simp [setOptionsGo, hl, ih _ _ _ hrest]
        · rcases w with b' | t' <;> simp [setOptionsGo, hl, ih _ _ _ hrest]

-- Keys whose current value is not a boolean are not mutated.
theorem setOptionsGo_lookup_not_bool (opts : List (String × JSVal)) :
    ∀ (st : OptionsState) (c : Bool) (k : String),
      (∀ b, lookupOpt st k ≠ some (JSVal.bool b)) →
      lookupOpt (setOptionsGo st c opts).1 k = lookupOpt st k := by
  induction opts with
  | nil => intro st c k _; simp [setOptionsGo]
  | cons kv rest ih =>
      intro st c k h
      obtain ⟨k1, v1⟩ := kv
      rcases v1 with b1 | t1
      · rcases hl : lookupOpt st k1 with _ | w
        · simp [setOptionsGo, hl, ih _ _ _ h]
        · rcases w with b' | t'
          · have hk : k1 ≠ k := by
              intro he
              subst he
              exact h b' hl
            have hpres : lookupOpt (assignOpt st k1 (JSVal.bool b1)) k
                = lookupOpt st k :=
              lookup_assign_ne st k1 k _ (fun hh => hk hh.symm)
            rw [show setOptionsGo st c ((k1, JSVal.bool b1) :: rest)
                  = setOptionsGo (assignOpt st k1 (JSVal.bool b1)) true rest by
                simp [setOptionsGo, hl]]
            rw [ih _ _ _ (by intro b hb; exact h b (hpres ▸ hb)), hpres]
          · simp [setOptionsGo, hl, ih _ _ _ h]
      · rcases hl : lookupOpt st k1 with _ | w
        · simp [setOptionsGo, hl, ih _ _ _ h]
        · rcases w with b' | t' <;> simp [setOptionsGo, hl, ih _ _ _ h]

-- The include scan with break computes List.any.
theorem includeLoop_eq_any (path : String) :
    ∀ l : List (String → Bool),
      includeLoop path l = l.any (fun reg => reg path) := by
  intro l
  induction l with
  | nil => simp [includeLoop]
  | cons reg rest ih => cases hr : reg path <;> simp [includeLoop, hr, ih]

-- The exclude scan accumulates a disjunction.
theorem excludeLoop_eq_or (path : String) :
    ∀ (l : List (String → Bool)) (b : Bool),
      excludeLoop path b l = (b || l.any (fun reg => reg path)) := by
  intro l
  induction l with
  | nil => intro b; simp [excludeLoop]
  | cons reg rest ih =>
      intro b
      cases hr : reg path <;> cases b <;> simp [excludeLoop, hr, ih]

-- Verbose log events are never stopped/terminal events.
theorem filter_sot_verboseLog (o : OptionsState) (m : String) :
    (verboseLogEvs o m).filter isStoppedOrTerminal = [] := by
  unfold verboseLogEvs
  split <;> simp [isStoppedOrTerminal]

-- Verbose log events are never update events.
theorem filter_upd_verboseLog (o : OptionsState) (m : String) :
    (verboseLogEvs o m).filter isUpdateEv = [] := by
  unfold verboseLogEvs
  split <;> simp [isUpdateEv]

/-! ## Claim theorems -/

/-- Claim C1 (code bug): with zero configured watch scopes the claim
says no `watcher:started` event is ever emitted, but the code passes the
empty promise list to `Promise.all`, which resolves immediately, so the
aggregate started event fires exactly once even though
`no main source or tests to watch.` was logged. -/
theorem c1_zero_scopes_still_emits_started :
    scheduledGroups ⟨false, false, false, false⟩ = [] ∧
    ((runWatcherInit defaultOptions ⟨false, false, false, false⟩
        (fun _ => ([], [])) []).filter isStartedEv).length = 1 := by
  constructor
  · rfl
  · rfl

/-- Claim C2: every shutdown request processed while the shutdown
binding is attached emits exactly one `stopped` event followed by
exactly one terminal event, chosen strictly by the `regenerate` flag
captured at request time; the other terminal event does not fire. -/
theorem c2_shutdown_terminal_exclusive (st : WatcherState)
    (payload : Option (Option JSVal)) (h : st.shutdownBound = true) :
    (processShutdownRequest st payload).2.filter isStoppedOrTerminal =
      [Ev.stopped,
       if regenOf payload then Ev.regenerateAllDocs else Ev.systemShutdown] := by
  cases hr : regenOf payload <;>
    simp [processShutdownRequest, h, shutdownCallback, hr,
      List.filter_append, filter_sot_verboseLog, isStoppedOrTerminal]

/-- Witness for C2 at a concrete running state and a
`regenerate: true` payload. -/
theorem c2_witness :
    (processShutdownRequest
        ⟨defaultOptions, false, true, true, false, false, false, true⟩
        (some (some (JSVal.bool true)))).2.filter isStoppedOrTerminal =
      [Ev.stopped, Ev.regenerateAllDocs] := by
  simpa [regenOf] using
    c2_shutdown_terminal_exclusive
      ⟨defaultOptions, false, true, true, false, false, false, true⟩
      (some (some (JSVal.bool true))) rfl

/-- Claim C3: a second shutdown request delivered after a first one
(whatever the payloads) produces no events at all — in particular no
additional `stopped` and no additional terminal event — because the
first `shutdownCallback` detached its own eventProxy binding. -/
theorem c3_second_shutdown_request_noop (st : WatcherState)
    (p1 p2 : Option (Option JSVal)) :
    (processShutdownRequest (processShutdownRequest st p1).1 p2).2 = [] := by
  by_cases hb : st.shutdownBound <;>
    simp [processShutdownRequest, hb, shutdownCallback]

/-- Claim C4: while `options.trigger` is false, no
`tjsdoc:system:watcher:update` event reaches the host event sink, for
any sequence of add/change/unlink callbacks from any WatchGroup. -/
theorem c4_no_update_events_when_trigger_off (opts : OptionsState)
    (ty : String) (onlyCh : Bool) (cbs : List FsCb)
    (h : lookupOpt opts "trigger" = some (JSVal.bool false)) :
    (watchGroupRun opts ty onlyCh cbs).filter isUpdateEv = [] := by
  have ht : optTruthy opts "trigger" = false := by simp [optTruthy, h, jsTruthy]
  induction cbs with
  | nil => simp [watchGroupRun]
  | cons cb rest ih =>
      have hcb : (watchGroupCallback opts ty onlyCh cb).filter isUpdateEv
          = [] := by
        cases cb <;> cases onlyCh <;>
          simp [watchGroupCallback, triggerEvent, ht, verboseLogEvs]
      have : (watchGroupRun opts ty onlyCh (cb :: rest)).filter isUpdateEv
          = (watchGroupCallback opts ty onlyCh cb).filter isUpdateEv ++
            (watchGroupRun opts ty onlyCh rest).filter isUpdateEv := by
        simp [watchGroupRun, List.filter_append]
      rw [this, hcb, ih]
      rfl

/-- Witness for C4: trigger off, a full add/change/unlink sequence,
zero update events. -/
theorem c4_witness :
    lookupOpt [("silent", JSVal.bool false), ("trigger", JSVal.bool false),
        ("verbose", JSVal.bool false)] "trigger" = some (JSVal.bool false) ∧
    (watchGroupRun [("silent", JSVal.bool false),
        ("trigger", JSVal.bool false), ("verbose", JSVal.bool false)]
        "source" false
        [FsCb.add "src/a.js", FsCb.change "src/a.js",
         FsCb.unlink "src/a.js"]).filter isUpdateEv = [] :=
  ⟨by decide,
   c4_no_update_events_when_trigger_off
     [("silent", JSVal.bool false), ("trigger", JSVal.bool false),
      ("verbose", JSVal.bool false)] "source" false
     [FsCb.add "src/a.js", FsCb.change "src/a.js", FsCb.unlink "src/a.js"]
     (by decide)⟩

/-- Claim C5: for every path and scope the ignore decision of
`Watcher.ignoredMatch` equals the reference definition — ignored iff the
path matches no include pattern or matches at least one exclude pattern
(exclude wins over include). -/
theorem c5_ignored_match_eq_spec (path : String) (cfg : ScopeConfig) :
    ignoredMatch path cfg = ignoredSpec path cfg := by
  rw [ignoredMatch, ignoredSpec, excludeLoop_eq_or, includeLoop_eq_any]
  cases cfg.includes.any (fun reg => reg path) <;>
    cases cfg.excludes.any (fun reg => reg path) <;> simp

/-- Claim C6: from any options state carrying a boolean `verbose`
property, `setOptions(\x7bverbose: true\x7d)` makes `getOptions()` read
`verbose` as true, leaves every other property at its prior value, and
broadcasts the full resulting state on the options-changed event. -/
theorem c6_set_verbose_true_roundtrip (st : OptionsState) (b0 : Bool)
    (h : lookupOpt st "verbose" = some (JSVal.bool b0)) :
    lookupOpt (getOptions (setOptionsCall st
        [("verbose", JSVal.bool true)]).1) "verbose"
      = some (JSVal.bool true) ∧
    (∀ k, k ≠ "verbose" →
      lookupOpt (getOptions (setOptionsCall st
          [("verbose", JSVal.bool true)]).1) k = lookupOpt st k) ∧
    (setOptionsCall st [("verbose", JSVal.bool true)]).2 =
      [Ev.optionsChanged (getOptions
        (setOptionsCall st [("verbose", JSVal.bool true)]).1)] := by
  have hrun : setOptionsCall st [("verbose", JSVal.bool true)]
      = (assignOpt st "verbose" (JSVal.bool true),
         [Ev.optionsChanged (getOptions
           (assignOpt st "verbose" (JSVal.bool true)))]) := by
    simp [setOptionsCall, setOptionsRun, setOptionsGo, h]
  refine ⟨?_, ?_, ?_⟩
  · rw [hrun]
    exact lookup_assign_self st "verbose" (JSVal.bool true)
  · intro k hk
    rw [hrun]
    exact lookup_assign_ne st "verbose" k _ hk
  · rw [hrun]

/-- Witness for C6 at the default options state. -/
theorem c6_witness :
    lookupOpt defaultOptions "verbose" = some (JSVal.bool false) ∧
    (lookupOpt (getOptions (setOptionsCall defaultOptions
        [("verbose", JSVal.bool true)]).1) "verbose"
      = some (JSVal.bool true) ∧
    (∀ k, k ≠ "verbose" →
      lookupOpt (getOptions (setOptionsCall defaultOptions
          [("verbose", JSVal.bool true)]).1) k = lookupOpt defaultOptions k) ∧
    (setOptionsCall defaultOptions [("verbose", JSVal.bool true)]).2 =
      [Ev.optionsChanged (getOptions
        (setOptionsCall defaultOptions [("verbose", JSVal.bool true)]).1)]) :=
  ⟨by decide, c6_set_verbose_true_roundtrip defaultOptions false (by decide)⟩

/-- Counterexample to claim C7 as stated: after `close()` a WatchGroup
whose last snapshot was non-empty does NOT return that snapshot from
`getWatched()` — the watcher reference was discarded, so the empty
mapping comes back. -/
theorem c7_counterexample :
    closeGroup ⟨some ⟨[("src", ["plugin.js"])]⟩⟩
      = Except.ok (⟨none⟩ : WatchGroupState) ∧
    groupGetWatched (⟨none⟩ : WatchGroupState) ≠ [("src", ["plugin.js"])] :=
  ⟨rfl, by decide⟩

/-- Claim C7 (amended): after a successful `close()` every subsequent
`getWatched()` call returns the empty mapping, not the pre-close
snapshot. -/
theorem c7_getwatched_after_close_empty (g g' : WatchGroupState)
    (h : closeGroup g = Except.ok g') : groupGetWatched g' = [] := by
  rcases hg : g.watcher with _ | w
  · rw [closeGroup, hg] at h
    cases h
  · rw [closeGroup, hg] at h
    cases h
    rfl

/-- Witness for amended C7 at a concrete initialized group. -/
theorem c7_witness :
    closeGroup ⟨some ⟨[("src", ["plugin.js"])]⟩⟩
      = Except.ok (⟨none⟩ : WatchGroupState) ∧
    groupGetWatched (⟨none⟩ : WatchGroupState) = [] :=
  ⟨rfl, c7_getwatched_after_close_empty ⟨some ⟨[("src", ["plugin.js"])]⟩⟩
    ⟨none⟩ rfl⟩

/-- Counterexample to claim C8 as stated: the create/modify/delete
scenario does yield exactly three update events in order, but their
action literals are `file:add`, `file:change`, `file:unlink` — not
`added`, `changed`, `deleted` as the claim names them. -/
theorem c8_counterexample :
    (((watchGroupRun defaultOptions "source" false
        [FsCb.add "src/a.js", FsCb.change "src/a.js",
         FsCb.unlink "src/a.js"]).filter isUpdateEv).map updateAction
      = ["file:add", "file:change", "file:unlink"]) ∧
    ¬ (((watchGroupRun defaultOptions "source" false
        [FsCb.add "src/a.js", FsCb.change "src/a.js",
         FsCb.unlink "src/a.js"]).filter isUpdateEv).map updateAction
      = ["added", "changed", "deleted"]) := by
  constructor
  · rfl
  · decide

/-- Claim C8 (amended): with `trigger` true, a main-source file created,
modified, then deleted produces exactly three
`tjsdoc:system:watcher:update` events, in that order, with the action
literals `file:add`, `file:change`, `file:unlink`. -/
theorem c8_three_updates_in_order (opts : OptionsState) (p : String)
    (h : lookupOpt opts "trigger" = some (JSVal.bool true)) :
    (watchGroupRun opts "source" false
        [FsCb.add p, FsCb.change p, FsCb.unlink p]).filter isUpdateEv =
      [Ev.update "file:add" "source" p (getOptions opts),
       Ev.update "file:change" "source" p (getOptions opts),
       Ev.update "file:unlink" "source" p (getOptions opts)] := by
  have ht : optTruthy opts "trigger" = true := by simp [optTruthy, h, jsTruthy]
  simp [watchGroupRun, watchGroupCallback, triggerEvent, ht,
    List.filter_append, filter_upd_verboseLog, isUpdateEv]

/-- Witness for amended C8 at the default options state. -/
theorem c8_witness :
    lookupOpt defaultOptions "trigger" = some (JSVal.bool true) ∧
    (watchGroupRun defaultOptions "source" false
        [FsCb.add "src/a.js", FsCb.change "src/a.js",
         FsCb.unlink "src/a.js"]).filter isUpdateEv =
      [Ev.update "file:add" "source" "src/a.js" (getOptions defaultOptions),
       Ev.update "file:change" "source" "src/a.js" (getOptions defaultOptions),
       Ev.update "file:unlink" "source" "src/a.js"
         (getOptions defaultOptions)] :=
  ⟨by decide, c8_three_updates_in_order defaultOptions "src/a.js" (by decide)⟩

/-- Claim C9: a console line invoking an optional (toggle) command with
a missing or unrecognized trailing token makes the generated exec throw
a command-argument error; the dispatcher catches it, reports it via
`log:info:raw`, leaves the option state and the readline session
untouched, and re-shows the prompt unless silent. -/
theorem c9_malformed_optional_command (cs : ConsoleState) (nm : String)
    (ls : List String)
    (h : ls[1]? = none ∨
      ∃ t, ls[1]? = some t ∧ t ≠ "on" ∧ t ≠ "off") :
    (dispatchOptionalCmd cs nm ls).1.options = cs.options ∧
    (dispatchOptionalCmd cs nm ls).1.readlineActive = cs.readlineActive ∧
    (dispatchOptionalCmd cs nm ls).2 =
      [Ev.logRaw ("\x1b[32mtjsdoc-plugin-watcher - " ++ malformedMsg nm
        ++ "\x1b[0m")] ∧
    (dispatchOptionalCmd cs nm ls).1.promptVisible =
      !(optTruthy cs.options "silent") := by
  rcases h with h0 | ⟨t, ht, hon, hoff⟩
  · cases hsil : optTruthy cs.options "silent" <;>
      simp [dispatchOptionalCmd, execOptional, h0, showPromptUpd, hsil]
  · cases hsil : optTruthy cs.options "silent" <;>
      simp [dispatchOptionalCmd, execOptional, ht, hon, hoff, showPromptUpd,
        hsil]

/-- Witness for C9: line `verbose maybe` against an open session with
default options. -/
theorem c9_witness :
    ((["verbose", "maybe"] : List String)[1]? = none ∨
      ∃ t, (["verbose", "maybe"] : List String)[1]? = some t ∧
        t ≠ "on" ∧ t ≠ "off") ∧
    ((dispatchOptionalCmd ⟨defaultOptions, true, false⟩ "verbose"
        ["verbose", "maybe"]).1.options = defaultOptions ∧
    (dispatchOptionalCmd ⟨defaultOptions, true, false⟩ "verbose"
        ["verbose", "maybe"]).1.readlineActive = true ∧
    (dispatchOptionalCmd ⟨defaultOptions, true, false⟩ "verbose"
        ["verbose", "maybe"]).2 =
      [Ev.logRaw ("\x1b[32mtjsdoc-plugin-watcher - " ++ malformedMsg "verbose"
        ++ "\x1b[0m")] ∧
    (dispatchOptionalCmd ⟨defaultOptions, true, false⟩ "verbose"
        ["verbose", "maybe"]).1.promptVisible =
      !(optTruthy defaultOptions "silent")) :=
  ⟨Or.inr ⟨"maybe", rfl, by decide, by decide⟩,
   c9_malformed_optional_command ⟨defaultOptions, true, false⟩ "verbose"
     ["verbose", "maybe"] (Or.inr ⟨"maybe", rfl, by decide, by decide⟩)⟩

/-- Claim C10: `setOptions` preserves the option key set for every
supplied partial object (unknown keys and non-boolean values included),
and mutates only keys already present with a boolean value and supplied
with a boolean value; everything else is silently ignored. -/
theorem c10_set_options_preserves_keys (st : OptionsState)
    (opts : List (String × JSVal)) :
    ((setOptionsRun st opts).1.map Prod.fst = st.map Prod.fst) ∧
    (∀ k, (∀ b, (k, JSVal.bool b) ∉ opts) →
      lookupOpt (setOptionsRun st opts).1 k = lookupOpt st k) ∧
    (∀ k, (∀ b, lookupOpt st k ≠ some (JSVal.bool b)) →
      lookupOpt (setOptionsRun st opts).1 k = lookupOpt st k) :=
  ⟨setOptionsGo_keys opts st false,
   fun k h => setOptionsGo_lookup_not_supplied opts st false k h,
   fun k h => setOptionsGo_lookup_not_bool opts st false k h⟩

/-- Witness for C10: a partial with an unknown key, a non-boolean value
for `silent`, and a boolean for `verbose`, applied to the default
state: keys preserved, `trigger` (never supplied) unchanged, `silent`
(supplied non-boolean) unchanged. -/
theorem c10_witness :
    ((setOptionsRun defaultOptions sampleSetOpts).1.map Prod.fst
      = defaultOptions.map Prod.fst) ∧
    lookupOpt (setOptionsRun defaultOptions sampleSetOpts).1 "trigger"
      = lookupOpt defaultOptions "trigger" :=
  ⟨(c10_set_options_preserves_keys defaultOptions sampleSetOpts).1,
   (c10_set_options_preserves_keys defaultOptions sampleSetOpts).2.1
     "trigger" (by decide)⟩

end TJSDocWatcher
